import Mathlib

/-!
Shallow embedding of the chat client in src/chat-interface.tsx.

The file holds two React components: a minimal variant (ChatInterface)
and an enhanced variant (EnhancedChatInterface) with multi-conversation
history and server settings.  Event handlers are embedded as pure state
transformers.  Within one handler invocation, the names destructured
from useState are the render-time snapshot captured by the closure,
while functional updates (setX of the form prev-to-next) apply to the
latest queued value; the embedding follows exactly that discipline, so
a handler takes the snapshot state and returns the state after the
whole React update queue has been applied.  Nondeterministic inputs of
a handler — the random id from generateId, Date.now(), and the network
outcome of fetch — are passed as explicit parameters.
-/

/-- Role of a chat message, per the Message interface in the source. -/
inductive Role where
  | user
  | assistant
deriving DecidableEq

/-- Message, per the Message interface: a role and a content string. -/
structure Message where
  role : Role
  content : String
deriving DecidableEq

/-- Conversation, per the Conversation interface of the enhanced variant. -/
structure Conversation where
  id : String
  title : String
  messages : List Message
  model : String
  timestamp : Nat
deriving DecidableEq

/-- ServerSettings, per the ServerSettings interface: host and port as text. -/
structure ServerSettings where
  host : String
  port : String
deriving DecidableEq

/-- The useState fields of the enhanced component (EnhancedChatInterface). -/
structure ChatState where
  currentConversation : Conversation
  conversations : List Conversation
  input : String
  isLoading : Bool
  models : List String
  isDarkMode : Bool
  isMobileMenuOpen : Bool
  isSidebarOpen : Bool
  isSettingsOpen : Bool
  serverSettings : ServerSettings
  tempSettings : ServerSettings
deriving DecidableEq

/-- The useState fields of the minimal component (ChatInterface). -/
structure MinimalState where
  messages : List Message
  input : String
  isLoading : Bool
  models : List String
  selectedModel : String
deriving DecidableEq

/-- JSON values, used for parsed fetch responses and persisted entries. -/
inductive Json where
  | null
  | bool (b : Bool)
  | num (n : Int)
  | str (s : String)
  | arr (elems : List Json)
  | obj (fields : List (String × Json))

/-- Field lookup on a JSON object, the embedding of the optional chain
step obj?.key: none when the value is not an object or lacks the key. -/
def Json.getField (j : Json) (key : String) : Option Json :=
  match j with
  | Json.obj fields => (fields.find? (fun p => p.1 == key)).map (fun p => p.2)
  | _ => none

/-- Index lookup on a JSON array, the embedding of arr?.[i]. -/
def Json.getIdx (j : Json) (i : Nat) : Option Json :=
  match j with
  | Json.arr elems => elems.get? i
  | _ => none

/-- Embedding of the JS string method trim: strip leading and trailing
whitespace.  JS trims Unicode whitespace; Char.isWhitespace covers the
same characters for the inputs that occur here. -/
def jsTrim (s : String) : String :=
  String.mk (((s.toList.dropWhile Char.isWhitespace).reverse.dropWhile Char.isWhitespace).reverse)

/-- Embedding of the JS expression x || d for x a string-or-undefined:
the default is taken when x is undefined or falsy (the empty string). -/
def jsOrDefault (x : Option String) (d : String) : String :=
  match x with
  | some s => if s = "" then d else s
  | none => d

/-- The optional chain data?.choices?.[0]?.message?.content of the send
handlers, extracting the content string from a parsed response body;
none when any step of the chain is missing.  The source would also pass
a non-string content value through; the embedding types the extraction
to strings, which agrees with the source on every response whose
content field is a string or absent (the cases the claims concern). -/
def contentAt (data : Json) : Option Json :=
  (((data.getField "choices").bind (fun c => c.getIdx 0)).bind
      (fun c => c.getField "message")).bind (fun m => m.getField "content")

/-- The content string of a response, as used to build aiResponse. -/
def contentString (data : Json) : Option String :=
  match contentAt data with
  | some (Json.str s) => some s
  | _ => none

/-- Outcome of one fetch of the completions endpoint: failure models a
rejected fetch or a response.json() that throws (the catch path);
success carries the parsed response body. -/
inductive FetchOutcome where
  | failure
  | success (data : Json)

/-- The outgoing completion request built by the send handlers: method,
URL, and the two fields of the JSON body (model and messages). -/
structure ChatRequest where
  method : String
  url : String
  model : String
  messages : List Message
deriving DecidableEq

/-- The URL of the completions endpoint built from server settings in
the enhanced send handler. -/
def requestUrlOf (st : ServerSettings) : String :=
  "http://" ++ st.host ++ ":" ++ st.port ++ "/v1/chat/completions"

/-- The initial state of the enhanced component: the useState initial
values, with the generateId result and Date.now of the initializer
passed in as startId and startTime.  The initial conversation list is
empty; the startup conversation is not inserted into it. -/
def initialState (startId : String) (startTime : Nat) : ChatState :=
  { currentConversation :=
      { id := startId, title := "New Conversation", messages := [],
        model := "", timestamp := startTime }
    conversations := []
    input := ""
    isLoading := false
    models := []
    isDarkMode := false
    isMobileMenuOpen := false
    isSidebarOpen := false
    isSettingsOpen := false
    serverSettings := { host := "localhost", port := "1234" }
    tempSettings := { host := "localhost", port := "1234" } }

/-- Embedding of the input onChange handler: setInput(e.target.value). -/
def typeInput (text : String) (s : ChatState) : ChatState :=
  { s with input := text }

/-- startNewChat of the enhanced variant.  freshId is the generateId
result and now the Date.now value.  The new conversation keeps the
model of the previously active conversation, becomes active, and is
prepended to the list. -/
def startNewChat (freshId : String) (now : Nat) (s : ChatState) : ChatState :=
  let newConversation : Conversation :=
    { id := freshId, title := "New Conversation", messages := [],
      model := s.currentConversation.model, timestamp := now }
  { s with currentConversation := newConversation
           conversations := newConversation :: s.conversations
           input := ""
           isMobileMenuOpen := false
           isSidebarOpen := false }

/-- A sequence of new-chat actions, folded left in event order. -/
def startNewChats (ids : List (String × Nat)) (s : ChatState) : ChatState :=
  ids.foldl (fun st p => startNewChat p.1 p.2 st) s

/-- switchConversation of the enhanced variant: find the conversation
by id; when found make it active and close the sidebar, otherwise do
nothing. -/
def switchConversation (targetId : String) (s : ChatState) : ChatState :=
  match s.conversations.find? (fun c => c.id == targetId) with
  | some conversation =>
      { s with currentConversation := conversation, isSidebarOpen := false }
  | none => s

/-- The title derivation of updateConversationTitle: the first message
content, truncated to 30 characters plus an ellipsis when longer. -/
def deriveTitle (userMessage : String) : String :=
  if userMessage.length > 30 then (userMessage.take 30) ++ "..." else userMessage

/-- updateConversationTitle of the enhanced variant.  snapshot is the
render-time currentConversation captured by the closure of the handler
that calls this function (NOT the value most recently queued by
setCurrentConversation); st is the pair of current React state values
(active conversation, conversation list) the queued updates apply to.
When the passed message list has length exactly 2 and the snapshot
title is still the placeholder, the snapshot — spread with the derived
title only — replaces the active conversation and its list entry. -/
def updateConversationTitle (msgs : List Message) (snapshot : Conversation)
    (st : Conversation × List Conversation) : Conversation × List Conversation :=
  if msgs.length = 2 ∧ snapshot.title = "New Conversation" then
    let userMessage := (msgs.headD { role := Role.user, content := "" }).content
    let updated := { snapshot with title := deriveTitle userMessage }
    (updated, st.2.map (fun c => if c.id = snapshot.id then updated else c))
  else st

/-- handleModelChange of the enhanced variant: set the model of the
active conversation and mirror the change into the list by id. -/
def handleModelChange (model : String) (s : ChatState) : ChatState :=
  let updatedConversation := { s.currentConversation with model := model }
  { s with currentConversation := updatedConversation
           conversations := s.conversations.map
             (fun c => if c.id = s.currentConversation.id then updatedConversation else c) }

/-- handleSendMessage of the enhanced variant, as the net effect of one
complete handler run.  now1 and now2 are the Date.now values taken
before and after the fetch; outcome is the fetch result.  Returns the
state after all queued updates apply, paired with the request issued
(none when the guard returns early).  All conversation objects are
built by spreading the snapshot cur, exactly as the source spreads the
closure variable currentConversation — in particular the title update
step spreads the snapshot, not the conversation just queued. -/
def handleSendMessage (s : ChatState) (now1 now2 : Nat) (outcome : FetchOutcome) :
    ChatState × Option ChatRequest :=
  if jsTrim s.input = "" ∨ s.currentConversation.model = "" then (s, none)
  else
    let cur := s.currentConversation
    let userMessage := s.input
    let newMessages := cur.messages ++ [{ role := Role.user, content := userMessage }]
    let updatedConversation := { cur with messages := newMessages, timestamp := now1 }
    let convs1 := s.conversations.map
      (fun c => if c.id = cur.id then updatedConversation else c)
    let req : ChatRequest :=
      { method := "POST", url := requestUrlOf s.serverSettings,
        model := cur.model,
        messages := [{ role := Role.user, content := userMessage }] }
    match outcome with
    | FetchOutcome.success data =>
        let aiResponse := jsOrDefault (contentString data) "No response from AI"
        let finalMessages := newMessages ++ [{ role := Role.assistant, content := aiResponse }]
        let finalConversation := { cur with messages := finalMessages, timestamp := now2 }
        let convs2 := convs1.map
          (fun c => if c.id = cur.id then finalConversation else c)
        let titled := updateConversationTitle finalMessages cur (finalConversation, convs2)
        ({ s with currentConversation := titled.1, conversations := titled.2,
                  input := "", isLoading := false }, some req)
    | FetchOutcome.failure =>
        let errorMessages := newMessages ++
          [{ role := Role.assistant, content := "Sorry, there was an error processing your request." }]
        let errorConversation := { cur with messages := errorMessages, timestamp := now2 }
        let convs2 := convs1.map
          (fun c => if c.id = cur.id then errorConversation else c)
        ({ s with currentConversation := errorConversation, conversations := convs2,
                  input := "", isLoading := false }, some req)

/-- handleSendMessage of the minimal variant: the guard checks the
trimmed input and selectedModel; the URL is the hard-coded localhost
endpoint; messages are appended with functional updates. -/
def minimalSendMessage (s : MinimalState) (outcome : FetchOutcome) :
    MinimalState × Option ChatRequest :=
  if jsTrim s.input = "" ∨ s.selectedModel = "" then (s, none)
  else
    let userMessage := s.input
    let afterUser := s.messages ++ [{ role := Role.user, content := userMessage }]
    let req : ChatRequest :=
      { method := "POST", url := "http://localhost:1234/v1/chat/completions",
        model := s.selectedModel,
        messages := [{ role := Role.user, content := userMessage }] }
    match outcome with
    | FetchOutcome.success data =>
        let aiResponse := jsOrDefault (contentString data) "No response from AI"
        let withReply := afterUser ++ [{ role := Role.assistant, content := aiResponse }]
        ({ s with messages := withReply, input := "", isLoading := false }, some req)
    | FetchOutcome.failure =>
        let errContent := "Sorry, there was an error processing your request."
        let withReply := afterUser ++ [{ role := Role.assistant, content := errContent }]
        ({ s with messages := withReply, input := "", isLoading := false }, some req)

/-- saveSettings of the enhanced variant: commit the edited settings
and close the settings surface (the model refetch is a network effect
outside the state). -/
def saveSettings (s : ChatState) : ChatState :=
  { s with serverSettings := s.tempSettings, isSettingsOpen := false }

/-- One localStorage entry as seen at load time: absent, a value on
which JSON.parse throws (corrupt), or a parsed JSON value. -/
inductive StoredEntry where
  | absent
  | corrupt
  | value (j : Json)

/-- JSON.stringify of the serverSettings object, at the level of the
parsed value it round-trips to. -/
def encodeSettings (st : ServerSettings) : Json :=
  Json.obj [("host", Json.str st.host), ("port", Json.str st.port)]

/-- Reading a ServerSettings value back out of a parsed JSON entry.
The source installs the parsed object verbatim; the typed embedding
decodes the two string fields, which succeeds on every value produced
by encodeSettings. -/
def decodeSettings (j : Json) : Option ServerSettings :=
  match j.getField "host", j.getField "port" with
  | some (Json.str h), some (Json.str p) => some { host := h, port := p }
  | _, _ => none

/-- The settings branch of the load effect: an absent entry leaves the
current settings in place, a corrupt entry is caught and also leaves
them in place, and a parsed entry is installed. -/
def loadServerSettings (entry : StoredEntry) (current : ServerSettings) : ServerSettings :=
  match entry with
  | StoredEntry.absent => current
  | StoredEntry.corrupt => current
  | StoredEntry.value j =>
      match decodeSettings j with
      | some st => st
      | none => current

/-- The persistence effect for settings: what the save useEffect writes
as the serverSettings entry. -/
def persistedSettingsEntry (s : ChatState) : StoredEntry :=
  StoredEntry.value (encodeSettings s.serverSettings)

/-- The invariant of claim C1: some conversation in the list carries
the id of the active conversation. -/
def ActiveInList (s : ChatState) : Prop :=
  ∃ c ∈ s.conversations, c.id = s.currentConversation.id

instance (s : ChatState) : Decidable (ActiveInList s) :=
  inferInstanceAs (Decidable (∃ c ∈ s.conversations, c.id = s.currentConversation.id))

/-- A concrete well-formed completion response body, used as input for
evaluations of the send handler. -/
def exampleResponse : Json :=
  Json.obj [("choices", Json.arr
    [Json.obj [("message", Json.obj [("content", Json.str "hello there")])]])]

/-- Replacing, by id, every matching entry of a list with a conversation
that carries that id preserves the presence of the id in the list. -/
lemma replace_preserves_id_mem {l : List Conversation} {i : String} (X : Conversation)
    (hX : X.id = i) (h : ∃ c ∈ l, c.id = i) :
    ∃ c ∈ l.map (fun c => if c.id = i then X else c), c.id = i := by
  obtain ⟨c, hcl, hci⟩ := h
  refine ⟨X, List.mem_map.mpr ⟨c, hcl, ?_⟩, hX⟩
  simp [hci]

/-- The title update step keeps the snapshot id as the id of the active
conversation and keeps that id present in the list. -/
lemma updateConversationTitle_active (msgs : List Message) (snapshot : Conversation)
    (cw : Conversation) (l : List Conversation)
    (hcw : cw.id = snapshot.id)
    (h : ∃ c ∈ l, c.id = snapshot.id) :
    ∃ c ∈ (updateConversationTitle msgs snapshot (cw, l)).2,
      c.id = (updateConversationTitle msgs snapshot (cw, l)).1.id := by
  unfold updateConversationTitle
  split
  · exact replace_preserves_id_mem _ rfl h
  · obtain ⟨c, hcl, hci⟩ := h
    exact ⟨c, hcl, by rw [hci, hcw]⟩

/-- C1 (amended): presence of the active conversation id in the
conversation list is established by every new-chat action and preserved by
every state-mutating operation (send with its embedded retitle, model
change, switch); the conversation created at startup, however, is never
inserted into the list, so the claim as stated fails before the first
new-chat action. -/
theorem active_in_list_preserved :
  (∀ (fid : String) (now : Nat) (s : ChatState), ActiveInList (startNewChat fid now s))
  ∧ (∀ (model : String) (s : ChatState), ActiveInList s → ActiveInList (handleModelChange model s))
  ∧ (∀ (targetId : String) (s : ChatState), ActiveInList s → ActiveInList (switchConversation targetId s))
  ∧ (∀ (s : ChatState) (n1 n2 : Nat) (o : FetchOutcome),
      ActiveInList s → ActiveInList (handleSendMessage s n1 n2 o).1) := by
  refine ⟨?_, ?_, ?_, ?_⟩
  · intro fid now s
    exact ⟨_, List.mem_cons_self _ _, rfl⟩
  · intro model s h
    exact replace_preserves_id_mem _ rfl h
  · intro targetId s h
    unfold switchConversation
    cases hfind : s.conversations.find? (fun c => c.id == targetId) with
    | none => simpa using h
    | some c => exact ⟨c, List.mem_of_find?_eq_some hfind, rfl⟩
  · intro s n1 n2 o h
    by_cases hg : jsTrim s.input = "" ∨ s.currentConversation.model = ""
    · simpa [handleSendMessage, hg] using h
    · cases o with
      | failure =>
          simp only [handleSendMessage, if_neg hg]
          exact replace_preserves_id_mem _ rfl (replace_preserves_id_mem _ rfl h)
      | success data =>
          simp only [handleSendMessage, if_neg hg]
          exact updateConversationTitle_active _ _ _ _ rfl
            (replace_preserves_id_mem _ rfl (replace_preserves_id_mem _ rfl h))

/-- C1 counterexample: in the initial state of the enhanced component the
conversation list is empty, so no conversation in the list carries the id
of the startup conversation — the claimed invariant fails before any
new-chat action. -/
theorem active_in_list_initial_violation : ¬ ActiveInList (initialState "a" 0) := by
  decide

/-- C1 witness: the amended invariant instantiated at concrete states, the
preservation hypotheses discharged by evaluation. -/
theorem active_in_list_preserved_witness :
  ActiveInList (startNewChat "a" 0 (initialState "z" 0))
  ∧ ActiveInList (handleModelChange "m" (startNewChat "a" 0 (initialState "z" 0)))
  ∧ ActiveInList (switchConversation "a" (startNewChat "a" 0 (initialState "z" 0)))
  ∧ ActiveInList (handleSendMessage (startNewChat "a" 0 (initialState "z" 0)) 1 2 FetchOutcome.failure).1 :=
  ⟨active_in_list_preserved.1 "a" 0 (initialState "z" 0),
   active_in_list_preserved.2.1 "m" (startNewChat "a" 0 (initialState "z" 0)) (by decide),
   active_in_list_preserved.2.2.1 "a" (startNewChat "a" 0 (initialState "z" 0)) (by decide),
   active_in_list_preserved.2.2.2 (startNewChat "a" 0 (initialState "z" 0)) 1 2 FetchOutcome.failure (by decide)⟩

/-- The ids of the conversation list after a sequence of new-chat actions
are the supplied fresh ids in reverse creation order, in front of the ids
already in the list. -/
lemma startNewChats_map_id :
  ∀ (ids : List (String × Nat)) (s : ChatState),
    (startNewChats ids s).conversations.map (fun c => c.id)
      = (ids.map (fun p => p.1)).reverse ++ s.conversations.map (fun c => c.id) := by
  intro ids
  induction ids with
  | nil => intro s; simp [startNewChats]
  | cons p rest ih =>
      intro s
      have hstep : startNewChats (p :: rest) s = startNewChats rest (startNewChat p.1 p.2 s) := rfl
      rw [hstep, ih (startNewChat p.1 p.2 s)]
      simp [startNewChat, List.append_assoc]

/-- C2: for every sequence of new-chat actions from the initial state, the
conversation list holds the created ids most-recent-first (the reverse of
creation order); when the generated ids are pairwise distinct — the
collision-resistance assumption the spec places on generateId — the ids in
the list are unique; and two sequential new-chat actions with distinct ids
leave both present, the second created appearing first in iteration
order. -/
theorem newChat_sequence_spec :
  ∀ (ids : List (String × Nat)) (sid : String) (t : Nat),
    ((startNewChats ids (initialState sid t)).conversations.map (fun c => c.id)
        = (ids.map (fun p => p.1)).reverse)
    ∧ ((ids.map (fun p => p.1)).Nodup →
        ((startNewChats ids (initialState sid t)).conversations.map (fun c => c.id)).Nodup)
    ∧ (∀ (a b : String) (t1 t2 : Nat), a ≠ b →
        (startNewChat b t2 (startNewChat a t1 (initialState sid t))).conversations.map (fun c => c.id)
          = [b, a]
        ∧ ((startNewChat b t2 (startNewChat a t1 (initialState sid t))).conversations.map
            (fun c => c.id)).Nodup
        ∧ (startNewChat b t2 (startNewChat a t1 (initialState sid t))).currentConversation.id = b) := by
  intro ids sid t
  refine ⟨?_, ?_, ?_⟩
  · rw [startNewChats_map_id]
    simp [initialState]
  · intro h
    rw [startNewChats_map_id]
    simp only [initialState, List.map_nil, List.append_nil]
    exact List.nodup_reverse.mpr h
  · intro a b t1 t2 hab
    refine ⟨by simp [startNewChat, initialState], ?_, rfl⟩
    simp [startNewChat, initialState, List.nodup_cons]
    exact fun h => hab h.symm

/-- C2 witness: two concrete new-chat actions with distinct ids, evaluated. -/
theorem newChat_sequence_spec_witness :
  ((startNewChats [("a", 1), ("b", 2)] (initialState "z" 0)).conversations.map (fun c => c.id)
      = ["b", "a"])
  ∧ ((startNewChats [("a", 1), ("b", 2)] (initialState "z" 0)).conversations.map
      (fun c => c.id)).Nodup
  ∧ ((startNewChat "b" 2 (startNewChat "a" 1 (initialState "z" 0))).conversations.map
        (fun c => c.id) = ["b", "a"]) :=
  ⟨(newChat_sequence_spec [("a", 1), ("b", 2)] "z" 0).1,
   (newChat_sequence_spec [("a", 1), ("b", 2)] "z" 0).2.1 (by decide),
   ((newChat_sequence_spec [("a", 1), ("b", 2)] "z" 0).2.2 "a" "b" 1 2 (by decide)).1⟩

/-- C3: title auto-derivation fires only when the passed message list has
length exactly 2 and the snapshot title still equals the placeholder
"New Conversation"; it then sets the title to the content of the first
message (the first user message), truncated to its first 30 characters
plus "..." when longer than 30 characters and kept verbatim otherwise;
when the title differs from the placeholder the operation returns the
state unchanged, so it never fires again — the check is by value on the
title string. -/
theorem updateConversationTitle_spec :
  ∀ (msgs : List Message) (snapshot : Conversation) (st : Conversation × List Conversation),
    (snapshot.title ≠ "New Conversation" → updateConversationTitle msgs snapshot st = st)
    ∧ (msgs.length ≠ 2 → updateConversationTitle msgs snapshot st = st)
    ∧ (∀ u rest, msgs = { role := Role.user, content := u } :: rest →
        msgs.length = 2 → snapshot.title = "New Conversation" →
        (updateConversationTitle msgs snapshot st).1.title
          = (if u.length > 30 then u.take 30 ++ "..." else u)
        ∧ (updateConversationTitle msgs snapshot st).1
          = { snapshot with title := (if u.length > 30 then u.take 30 ++ "..." else u) }) := by
  intro msgs snapshot st
  refine ⟨?_, ?_, ?_⟩
  · intro h
    simp [updateConversationTitle, h]
  · intro h
    simp [updateConversationTitle, h]
  · intro u rest hmsgs hlen htitle
    subst hmsgs
    constructor <;> simp [updateConversationTitle, hlen, htitle, deriveTitle]

/-- C3 witness: a concrete first exchange derives the verbatim short
title, and a conversation whose title is already taken is untouched. -/
theorem updateConversationTitle_spec_witness :
  ((updateConversationTitle
      [{ role := Role.user, content := "hello" }, { role := Role.assistant, content := "ok" }]
      { id := "a", title := "New Conversation", messages := [], model := "", timestamp := 0 }
      ({ id := "a", title := "New Conversation", messages := [], model := "", timestamp := 0 }, [])).1.title
    = "hello")
  ∧ (updateConversationTitle
      [{ role := Role.user, content := "hello" }, { role := Role.assistant, content := "ok" }]
      { id := "a", title := "taken", messages := [], model := "", timestamp := 0 }
      ({ id := "a", title := "taken", messages := [], model := "", timestamp := 0 }, [])
    = ({ id := "a", title := "taken", messages := [], model := "", timestamp := 0 }, [])) :=
  ⟨by
    have h := ((updateConversationTitle_spec
      [{ role := Role.user, content := "hello" }, { role := Role.assistant, content := "ok" }]
      { id := "a", title := "New Conversation", messages := [], model := "", timestamp := 0 }
      ({ id := "a", title := "New Conversation", messages := [], model := "", timestamp := 0 }, [])).2.2
      "hello" [{ role := Role.assistant, content := "ok" }] rfl (by decide) rfl).1
    simpa using h,
   (updateConversationTitle_spec _ _ _).1 (by decide)⟩

/-- C4 evaluation at the failing input: a first send in a fresh
conversation (placeholder title, no messages, model selected, non-blank
input) with a successful response leaves the active conversation with an
EMPTY message list and the derived title, and its list entry likewise
empty, because the title update step spreads the stale pre-send snapshot;
the failure path at the same input does grow the message list by two. -/
theorem first_exchange_send_result :
  ((handleSendMessage (typeInput "hi" (handleModelChange "m" (startNewChat "a" 0 (initialState "z" 0))))
      1 2 (FetchOutcome.success exampleResponse)).1.currentConversation.messages = [])
  ∧ ((handleSendMessage (typeInput "hi" (handleModelChange "m" (startNewChat "a" 0 (initialState "z" 0))))
      1 2 (FetchOutcome.success exampleResponse)).1.currentConversation.title = "hi")
  ∧ ((handleSendMessage (typeInput "hi" (handleModelChange "m" (startNewChat "a" 0 (initialState "z" 0))))
      1 2 (FetchOutcome.success exampleResponse)).1.conversations.map (fun c => c.messages.length) = [0])
  ∧ ((handleSendMessage (typeInput "hi" (handleModelChange "m" (startNewChat "a" 0 (initialState "z" 0))))
      1 2 FetchOutcome.failure).1.currentConversation.messages.length = 2) := by
  decide

/-- C5: whenever the guard passes, the send handler issues exactly one
POST request to the completions endpoint of the configured host and port
whose body holds the selected model and a single-element message list with
only the latest user message, no matter how many messages the conversation
holds, in both variants. -/
theorem send_request_shape :
  (∀ (s : ChatState) (n1 n2 : Nat) (o : FetchOutcome),
      jsTrim s.input ≠ "" → s.currentConversation.model ≠ "" →
      (handleSendMessage s n1 n2 o).2 = some
        { method := "POST",
          url := "http://" ++ s.serverSettings.host ++ ":" ++ s.serverSettings.port
                  ++ "/v1/chat/completions",
          model := s.currentConversation.model,
          messages := [{ role := Role.user, content := s.input }] })
  ∧ (∀ (m : MinimalState) (o : FetchOutcome),
      jsTrim m.input ≠ "" → m.selectedModel ≠ "" →
      (minimalSendMessage m o).2 = some
        { method := "POST", url := "http://localhost:1234/v1/chat/completions",
          model := m.selectedModel,
          messages := [{ role := Role.user, content := m.input }] }) := by
  constructor
  · intro s n1 n2 o h1 h2
    have hg : ¬(jsTrim s.input = "" ∨ s.currentConversation.model = "") := not_or.mpr ⟨h1, h2⟩
    cases o <;> simp [handleSendMessage, hg, requestUrlOf]
  · intro m o h1 h2
    have hg : ¬(jsTrim m.input = "" ∨ m.selectedModel = "") := not_or.mpr ⟨h1, h2⟩
    cases o <;> simp [minimalSendMessage, hg]

/-- C5 witness: concrete sends in both variants emit the singleton-message
request. -/
theorem send_request_shape_witness :
  ((handleSendMessage (typeInput "hi" (handleModelChange "m" (startNewChat "a" 0 (initialState "z" 0))))
      1 2 FetchOutcome.failure).2 = some
      { method := "POST",
        url := "http://" ++ "localhost" ++ ":" ++ "1234" ++ "/v1/chat/completions",
        model := "m", messages := [{ role := Role.user, content := "hi" }] })
  ∧ ((minimalSendMessage
        { messages := [], input := "hi", isLoading := false, models := [], selectedModel := "m" }
        FetchOutcome.failure).2 = some
      { method := "POST", url := "http://localhost:1234/v1/chat/completions",
        model := "m", messages := [{ role := Role.user, content := "hi" }] }) :=
  ⟨send_request_shape.1 (typeInput "hi" (handleModelChange "m" (startNewChat "a" 0 (initialState "z" 0))))
      1 2 FetchOutcome.failure (by decide) (by decide),
   send_request_shape.2
      { messages := [], input := "hi", isLoading := false, models := [], selectedModel := "m" }
      FetchOutcome.failure (by decide) (by decide)⟩

/-- C6: the create-conversation operation produces a conversation with the
fresh id, default title "New Conversation", an empty message list, the
model carried over from the previously active conversation and the current
timestamp; it becomes the active conversation and is inserted at the front
of the list. -/
theorem startNewChat_spec :
  ∀ (fid : String) (now : Nat) (s : ChatState),
    (startNewChat fid now s).currentConversation =
      { id := fid, title := "New Conversation", messages := [],
        model := s.currentConversation.model, timestamp := now }
    ∧ (startNewChat fid now s).conversations =
        (startNewChat fid now s).currentConversation :: s.conversations := by
  intro fid now s
  exact ⟨rfl, rfl⟩

/-- C7: switching to an id not present in the list is a silent no-op
returning the state unchanged; switching to a present id makes the found
conversation active and leaves the list itself unchanged, with no
reordering. -/
theorem switchConversation_spec :
  ∀ (s : ChatState) (targetId : String),
    ((∀ c ∈ s.conversations, c.id ≠ targetId) → switchConversation targetId s = s)
    ∧ (∀ c, s.conversations.find? (fun c => c.id == targetId) = some c →
        (switchConversation targetId s).currentConversation = c
        ∧ c ∈ s.conversations ∧ c.id = targetId
        ∧ (switchConversation targetId s).conversations = s.conversations) := by
  intro s targetId
  constructor
  · intro h
    have hnone : s.conversations.find? (fun c => c.id == targetId) = none := by
      rw [List.find?_eq_none]
      intro c hc
      simpa using h c hc
    simp [switchConversation, hnone]
  · intro c hc
    have hmem := List.mem_of_find?_eq_some hc
    have hid : c.id = targetId := by
      have := List.find?_some hc
      simpa using this
    refine ⟨?_, hmem, hid, ?_⟩ <;> simp [switchConversation, hc]

/-- C7 witness: switching to a missing id is the identity on a concrete
state; switching to the present id activates that conversation and keeps
the list. -/
theorem switchConversation_spec_witness :
  (switchConversation "q" (startNewChat "a" 0 (initialState "z" 0))
      = startNewChat "a" 0 (initialState "z" 0))
  ∧ ((switchConversation "a" (startNewChat "a" 0 (initialState "z" 0))).currentConversation
      = { id := "a", title := "New Conversation", messages := [], model := "", timestamp := 0 })
  ∧ ((switchConversation "a" (startNewChat "a" 0 (initialState "z" 0))).conversations
      = (startNewChat "a" 0 (initialState "z" 0)).conversations) :=
  ⟨(switchConversation_spec (startNewChat "a" 0 (initialState "z" 0)) "q").1 (by decide),
   ((switchConversation_spec (startNewChat "a" 0 (initialState "z" 0)) "a").2
      { id := "a", title := "New Conversation", messages := [], model := "", timestamp := 0 }
      (by decide)).1,
   ((switchConversation_spec (startNewChat "a" 0 (initialState "z" 0)) "a").2
      { id := "a", title := "New Conversation", messages := [], model := "", timestamp := 0 }
      (by decide)).2.2.2⟩

/-- C8: decoding inverts encoding for server settings, so saving the
settings host example.com and port 8080 and then reloading yields exactly
those values and the URL built from them for subsequent requests; an
absent or unparseable persisted entry leaves the current settings in
place, which in the initial state are the defaults localhost and 1234. -/
theorem settings_roundtrip_spec :
  (∀ st : ServerSettings, decodeSettings (encodeSettings st) = some st)
  ∧ (∀ d : ServerSettings, loadServerSettings StoredEntry.absent d = d)
  ∧ (∀ d : ServerSettings, loadServerSettings StoredEntry.corrupt d = d)
  ∧ (∀ (sid : String) (t : Nat),
      loadServerSettings StoredEntry.absent (initialState sid t).serverSettings
        = { host := "localhost", port := "1234" })
  ∧ (∀ (s : ChatState) (d : ServerSettings),
      loadServerSettings
        (persistedSettingsEntry
          (saveSettings { s with tempSettings := { host := "example.com", port := "8080" } })) d
        = { host := "example.com", port := "8080" })
  ∧ (∀ (s : ChatState) (d : ServerSettings),
      requestUrlOf
        (loadServerSettings
          (persistedSettingsEntry
            (saveSettings { s with tempSettings := { host := "example.com", port := "8080" } })) d)
        = "http://example.com:8080/v1/chat/completions") := by
  refine ⟨?_, fun d => rfl, fun d => rfl, fun sid t => rfl, fun s d => rfl, fun s d => rfl⟩
  intro st
  rfl

/-- C9: sending a message while no model is selected (the model field of
the active conversation, or selectedModel in the minimal variant, is the
empty string) returns the state completely unchanged and issues no
request, in both variants. -/
theorem send_without_model_noop :
  (∀ (s : ChatState) (n1 n2 : Nat) (o : FetchOutcome),
      s.currentConversation.model = "" → handleSendMessage s n1 n2 o = (s, none))
  ∧ (∀ (m : MinimalState) (o : FetchOutcome),
      m.selectedModel = "" → minimalSendMessage m o = (m, none)) := by
  constructor
  · intro s n1 n2 o h
    simp [handleSendMessage, h]
  · intro m o h
    simp [minimalSendMessage, h]

/-- C9 witness: a concrete send with non-blank input but no model selected
is the identity and emits no request, in both variants. -/
theorem send_without_model_noop_witness :
  handleSendMessage (typeInput "hi" (initialState "a" 0)) 1 2 FetchOutcome.failure
      = (typeInput "hi" (initialState "a" 0), none)
  ∧ minimalSendMessage
      { messages := [], input := "hi", isLoading := false, models := [], selectedModel := "" }
      FetchOutcome.failure
      = ({ messages := [], input := "hi", isLoading := false, models := [], selectedModel := "" }, none) :=
  ⟨send_without_model_noop.1 (typeInput "hi" (initialState "a" 0)) 1 2 FetchOutcome.failure rfl,
   send_without_model_noop.2
      { messages := [], input := "hi", isLoading := false, models := [], selectedModel := "" }
      FetchOutcome.failure rfl⟩

/-- C10: when the parsed response carries a content field at
choices[0].message.content that is present but equal to the empty string,
the appended assistant message content is the fallback text
"No response from AI" — the same result as for a response lacking the
field entirely — because the extraction treats any falsy value as
missing; shown for both variants. -/
theorem empty_content_fallback :
  (∀ (m : MinimalState) (data : Json),
      jsTrim m.input ≠ "" → m.selectedModel ≠ "" → contentString data = some "" →
      (minimalSendMessage m (FetchOutcome.success data)).1.messages
        = m.messages ++ [{ role := Role.user, content := m.input },
                         { role := Role.assistant, content := "No response from AI" }]
      ∧ ∀ data2 : Json, contentString data2 = none →
          (minimalSendMessage m (FetchOutcome.success data)).1
            = (minimalSendMessage m (FetchOutcome.success data2)).1)
  ∧ (∀ (s : ChatState) (n1 n2 : Nat) (data : Json),
      jsTrim s.input ≠ "" → s.currentConversation.model ≠ "" →
      s.currentConversation.title ≠ "New Conversation" →
      contentString data = some "" →
      (handleSendMessage s n1 n2 (FetchOutcome.success data)).1.currentConversation.messages
        = s.currentConversation.messages ++
            [{ role := Role.user, content := s.input },
             { role := Role.assistant, content := "No response from AI" }]) := by
  constructor
  · intro m data h1 h2 hc
    have hg : ¬(jsTrim m.input = "" ∨ m.selectedModel = "") := not_or.mpr ⟨h1, h2⟩
    constructor
    · simp [minimalSendMessage, hg, hc, jsOrDefault]
    · intro data2 hc2
      simp [minimalSendMessage, hg, hc, hc2, jsOrDefault]
  · intro s n1 n2 data h1 h2 htitle hc
    have hg : ¬(jsTrim s.input = "" ∨ s.currentConversation.model = "") := not_or.mpr ⟨h1, h2⟩
    simp [handleSendMessage, hg, hc, jsOrDefault, updateConversationTitle, htitle]

/-- C10 witness: a concrete response whose content field is the empty
string yields the fallback assistant message, in both variants. -/
theorem empty_content_fallback_witness :
  ((minimalSendMessage
      { messages := [], input := "hi", isLoading := false, models := [], selectedModel := "m" }
      (FetchOutcome.success (Json.obj [("choices", Json.arr
        [Json.obj [("message", Json.obj [("content", Json.str "")])]])]))).1.messages
    = [{ role := Role.user, content := "hi" },
       { role := Role.assistant, content := "No response from AI" }])
  ∧ ((handleSendMessage
        { currentConversation :=
            { id := "a", title := "taken", messages := [], model := "m", timestamp := 0 }
          conversations := []
          input := "hi"
          isLoading := false
          models := []
          isDarkMode := false
          isMobileMenuOpen := false
          isSidebarOpen := false
          isSettingsOpen := false
          serverSettings := { host := "localhost", port := "1234" }
          tempSettings := { host := "localhost", port := "1234" } }
        1 2 (FetchOutcome.success (Json.obj [("choices", Json.arr
          [Json.obj [("message", Json.obj [("content", Json.str "")])]])]))).1.currentConversation.messages
    = [{ role := Role.user, content := "hi" },
       { role := Role.assistant, content := "No response from AI" }]) := by
  constructor
  · have h := (empty_content_fallback.1
      { messages := [], input := "hi", isLoading := false, models := [], selectedModel := "m" }
      (Json.obj [("choices", Json.arr
        [Json.obj [("message", Json.obj [("content", Json.str "")])]])])
      (by decide) (by decide) (by decide)).1
    simpa using h
  · have h := empty_content_fallback.2
      { currentConversation :=
          { id := "a", title := "taken", messages := [], model := "m", timestamp := 0 }
        conversations := []
        input := "hi"
        isLoading := false
        models := []
        isDarkMode := false
        isMobileMenuOpen := false
        isSidebarOpen := false
        isSettingsOpen := false
        serverSettings := { host := "localhost", port := "1234" }
        tempSettings := { host := "localhost", port := "1234" } }
      1 2
      (Json.obj [("choices", Json.arr
        [Json.obj [("message", Json.obj [("content", Json.str "")])]])])
      (by decide) (by decide) (by decide) (by decide)
    simpa using h
